import Mathlib

/-!
Verification of the book-collection store in
`src/context/BookCollectionContext.tsx`: the reducer
`bookCollectionReducer`, the initial state, the dispatch wrappers
(`addBook`, `removeBook`, `updateBookStatus`, `searchBooks`,
`clearSearch`) and the derived-view helpers (`getBookById`,
`getBooksByStatus`, `getTotalBooks`, `getReadingProgress`).
-/

namespace CodeCaddy

/-- `type BookStatus = "want-to-read" | "currently-reading" | "have-read"`. -/
inductive BookStatus where
  | wantToRead
  | currentlyReading
  | haveRead
deriving DecidableEq, Repr

/-- `imageLinks?: { thumbnail: string }` — the nested image-link object. -/
structure ImageLinks where
  thumbnail : String
deriving DecidableEq, Repr

/-- The `Book` interface: `id`, `title`, `authors`, `description` are
required; `publishedDate`, `pageCount`, `imageLinks` and `status` are
optional (`Option` models an absent / `undefined` field). -/
structure Book where
  id : String
  title : String
  authors : List String
  description : String
  publishedDate : Option String
  pageCount : Option Nat
  imageLinks : Option ImageLinks
  status : Option BookStatus
deriving DecidableEq, Repr

/-- `BookCollectionState`: the reducer state with all seven fields of the
source interface (`isLoading`, `error` and the three unused status lists
are carried along untouched by every transition, as the spreads do). -/
structure BookCollectionState where
  books : List Book
  isLoading : Bool
  error : Option String
  searchResults : List Book
  currentlyReading : List Book
  wantToRead : List Book
  haveRead : List Book
deriving DecidableEq, Repr

/-- The tagged action union `BookCollectionAction`. -/
inductive BookCollectionAction where
  | ADD_BOOK (payload : Book)
  | REMOVE_BOOK (payload : String)
  | UPDATE_BOOK_STATUS (id : String) (status : BookStatus)
  | SET_SEARCH_RESULTS (payload : List Book)
deriving DecidableEq, Repr

/-- `bookCollectionReducer(state, action)`: `ADD_BOOK` appends the payload
with `status` overwritten to `"want-to-read"`; `REMOVE_BOOK` keeps the
books whose `id` differs from the payload; `UPDATE_BOOK_STATUS` rewrites
the `status` of every book whose `id` matches; `SET_SEARCH_RESULTS`
replaces `searchResults`. -/
def bookCollectionReducer (state : BookCollectionState)
    (action : BookCollectionAction) : BookCollectionState :=
  match action with
  | BookCollectionAction.ADD_BOOK payload =>
      { state with
        books := state.books ++ [{ payload with status := some BookStatus.wantToRead }] }
  | BookCollectionAction.REMOVE_BOOK payload =>
      { state with
        books := state.books.filter (fun book => book.id ≠ payload) }
  | BookCollectionAction.UPDATE_BOOK_STATUS id status =>
      { state with
        books := state.books.map (fun book =>
          if book.id = id then { book with status := some status } else book) }
  | BookCollectionAction.SET_SEARCH_RESULTS payload =>
      { state with searchResults := payload }

/-- The hard-coded `sampleBooks` array (no `status` field on either). -/
def sampleBooks : List Book :=
  [ { id := "1"
      title := "The Great Gatsby"
      authors := ["F. Scott Fitzgerald"]
      description := "A classic American novel"
      publishedDate := some "1925"
      pageCount := some 180
      imageLinks := some { thumbnail := "https://via.placeholder.com/128x192/4a90e2/ffffff?text=Book" }
      status := none },
    { id := "2"
      title := "To Kill a Mockingbird"
      authors := ["Harper Lee"]
      description := "A story of racial injustice and childhood innocence"
      publishedDate := some "1960"
      pageCount := some 281
      imageLinks := some { thumbnail := "https://via.placeholder.com/128x192/7ed321/ffffff?text=Book" }
      status := none } ]

/-- `initialState`: the sample books each given status `"want-to-read"`;
empty search results; `isLoading` false, `error` null, the three status
lists empty. -/
def initialState : BookCollectionState :=
  { books := sampleBooks.map (fun book => { book with status := some BookStatus.wantToRead })
    searchResults := []
    isLoading := false
    error := none
    currentlyReading := []
    wantToRead := []
    haveRead := [] }

/-- `addBook(book)` dispatches `ADD_BOOK`. -/
def addBook (book : Book) (state : BookCollectionState) : BookCollectionState :=
  bookCollectionReducer state (BookCollectionAction.ADD_BOOK book)

/-- `removeBook(bookId)` dispatches `REMOVE_BOOK`. -/
def removeBook (bookId : String) (state : BookCollectionState) : BookCollectionState :=
  bookCollectionReducer state (BookCollectionAction.REMOVE_BOOK bookId)

/-- `updateBookStatus(bookId, status)` dispatches `UPDATE_BOOK_STATUS`. -/
def updateBookStatus (bookId : String) (status : BookStatus)
    (state : BookCollectionState) : BookCollectionState :=
  bookCollectionReducer state (BookCollectionAction.UPDATE_BOOK_STATUS bookId status)

/-- The mock fallback record built in the `catch` branch of `searchBooks`:
id `` `search-${Date.now()}` ``, title `` `Search Result: ${query}` ``,
with the fixed author, description, date, page count and thumbnail.
`now` stands for the value of `Date.now()`. -/
def mockSearchResult (query : String) (now : Nat) : Book :=
  { id := "search-" ++ toString now
    title := "Search Result: " ++ query
    authors := ["Sample Author"]
    description := "This is a mock search result (API may be unavailable)"
    publishedDate := some "2023"
    pageCount := some 200
    imageLinks := some { thumbnail := "https://via.placeholder.com/128x192/ff6b6b/ffffff?text=Search" }
    status := some BookStatus.wantToRead }

/-- `searchBooks(query)`: the gateway call `searchGoogleBooks(query)` is
abstracted as `gatewayResult`. On success the items are given status
`"want-to-read"` and dispatched as `SET_SEARCH_RESULTS`; on any failure
the single `mockSearchResult` built from the query and the current time
is dispatched instead. -/
def searchBooks (query : String) (gatewayResult : Except Unit (List Book))
    (now : Nat) (state : BookCollectionState) : BookCollectionState :=
  match gatewayResult with
  | Except.ok items =>
      bookCollectionReducer state (BookCollectionAction.SET_SEARCH_RESULTS
        (items.map (fun book => { book with status := some BookStatus.wantToRead })))
  | Except.error _ =>
      bookCollectionReducer state (BookCollectionAction.SET_SEARCH_RESULTS
        [mockSearchResult query now])

/-- `clearSearch()` dispatches `SET_SEARCH_RESULTS` with `[]`. -/
def clearSearch (state : BookCollectionState) : BookCollectionState :=
  bookCollectionReducer state (BookCollectionAction.SET_SEARCH_RESULTS [])

/-- `getBookById(id)`: first book whose `id` matches, or `undefined`. -/
def getBookById (id : String) (state : BookCollectionState) : Option Book :=
  state.books.find? (fun book => book.id = id)

/-- `getBooksByStatus(status)`: the books whose `status` equals the given
one (an unset `status` matches nothing, as `undefined === s` is false). -/
def getBooksByStatus (status : BookStatus) (state : BookCollectionState) : List Book :=
  state.books.filter (fun book => book.status = some status)

/-- `getTotalBooks()`: length of the collection. -/
def getTotalBooks (state : BookCollectionState) : Nat :=
  state.books.length

/-- `getReadingProgress()`: `completed` counts the `"have-read"` books,
`total` is the collection length. -/
def getReadingProgress (state : BookCollectionState) : Nat × Nat :=
  ((state.books.filter (fun book => book.status = some BookStatus.haveRead)).length,
   state.books.length)

/-- A collection state satisfies the identifier-uniqueness invariant when
no two of its books share an `id`. -/
def UniqueIds (state : BookCollectionState) : Prop :=
  (state.books.map Book.id).Nodup

instance (state : BookCollectionState) : Decidable (UniqueIds state) :=
  inferInstanceAs (Decidable (List.Nodup _))

/-- One user-level mutation of the collection, for reasoning about
arbitrary finite operation sequences. -/
inductive StoreOp where
  | add (book : Book)
  | remove (bookId : String)
  | updateStatus (bookId : String) (status : BookStatus)
deriving DecidableEq, Repr

/-- Apply one `StoreOp` through the corresponding dispatch wrapper. -/
def applyOp (state : BookCollectionState) : StoreOp → BookCollectionState
  | StoreOp.add book => addBook book state
  | StoreOp.remove bookId => removeBook bookId state
  | StoreOp.updateStatus bookId status => updateBookStatus bookId status state

/-- Apply a finite sequence of operations left to right. -/
def applyOps (state : BookCollectionState) (ops : List StoreOp) : BookCollectionState :=
  ops.foldl applyOp state

/-- C10: before any operation the store's Collection already holds exactly
the two hard-coded sample books, with identifiers "1" and "2", each with
status want-to-read, so `getTotalBooks` returns 2 and
`getReadingProgress` returns (0, 2). -/
theorem c10_initial_state_not_empty :
    getTotalBooks initialState = 2 ∧
    initialState.books.map Book.id = ["1", "2"] ∧
    initialState.books.map Book.status =
      [some BookStatus.wantToRead, some BookStatus.wantToRead] ∧
    getReadingProgress initialState = (0, 2) := by
  decide

/-- C8: `searchBooks` (whatever the gateway returned) and `clearSearch`
leave the `books` field unchanged, as does any `SET_SEARCH_RESULTS`
transition of the reducer: search activity never touches the Collection. -/
theorem c8_search_frame (state : BookCollectionState) (query : String)
    (gatewayResult : Except Unit (List Book)) (now : Nat) (payload : List Book) :
    (searchBooks query gatewayResult now state).books = state.books ∧
    (clearSearch state).books = state.books ∧
    (bookCollectionReducer state
      (BookCollectionAction.SET_SEARCH_RESULTS payload)).books = state.books := by
  refine ⟨?_, rfl, rfl⟩
  cases gatewayResult <;> rfl

/-- C3: for every state and identifier, `removeBook id` followed by
`getBookById id` yields `none`; and when no book carries that identifier,
`removeBook id` is the identity on the whole state (silent no-op). -/
theorem c3_remove_then_get_none (state : BookCollectionState) (id : String) :
    getBookById id (removeBook id state) = none ∧
    ((∀ b ∈ state.books, b.id ≠ id) → removeBook id state = state) := by
  constructor
  · apply List.find?_eq_none.mpr
    intro b hb
    simp only [removeBook, bookCollectionReducer, List.mem_filter,
      decide_eq_true_eq] at hb
    simp only [decide_eq_true_eq]
    exact hb.2
  · intro h
    simp only [removeBook, bookCollectionReducer]
    have hfilter : state.books.filter (fun book => book.id ≠ id) = state.books :=
      List.filter_eq_self.mpr (fun b hb => by simpa using h b hb)
    rw [hfilter]

/-- Witness for C3 at the concrete identifier "9" over the initial state. -/
theorem c3_remove_then_get_none_witness :
    getBookById "9" (removeBook "9" initialState) = none ∧
    removeBook "9" initialState = initialState :=
  ⟨(c3_remove_then_get_none initialState "9").1,
   (c3_remove_then_get_none initialState "9").2 (by decide)⟩

/-- C4: `updateBookStatus` is idempotent — applying it twice with the same
identifier and status yields exactly the state of applying it once. -/
theorem c4_update_status_idempotent (state : BookCollectionState)
    (id : String) (status : BookStatus) :
    updateBookStatus id status (updateBookStatus id status state) =
      updateBookStatus id status state := by
  simp only [updateBookStatus, bookCollectionReducer]
  congr 1
  rw [List.map_map]
  apply List.map_congr_left
  intro b _
  simp only [Function.comp]
  by_cases h : b.id = id <;> simp [h]

/-- C5: `getBooksByStatus s` is exactly the subsequence of the Collection
whose books have status `s`, in insertion order: it is a sublist of the
Collection (so order is preserved), every returned book has status `s`,
every Collection book with status `s` is returned, and an empty
Collection yields the empty list. -/
theorem c5_get_by_status (state : BookCollectionState) (status : BookStatus) :
    (getBooksByStatus status state).Sublist state.books ∧
    (∀ b ∈ getBooksByStatus status state, b.status = some status) ∧
    (∀ b ∈ state.books, b.status = some status →
      b ∈ getBooksByStatus status state) ∧
    (state.books = [] → getBooksByStatus status state = []) := by
  refine ⟨List.filter_sublist _, ?_, ?_, ?_⟩
  · intro b hb
    simpa using (List.mem_filter.mp hb).2
  · intro b hb h
    exact List.mem_filter.mpr ⟨hb, by simpa using h⟩
  · intro h
    simp [getBooksByStatus, h]

/-- Witness for C5 at the initial state and status want-to-read. -/
theorem c5_get_by_status_witness :
    (getBooksByStatus BookStatus.wantToRead initialState).Sublist
      initialState.books ∧
    (∀ b ∈ getBooksByStatus BookStatus.wantToRead initialState,
      b.status = some BookStatus.wantToRead) ∧
    (∀ b ∈ initialState.books, b.status = some BookStatus.wantToRead →
      b ∈ getBooksByStatus BookStatus.wantToRead initialState) ∧
    (initialState.books = [] →
      getBooksByStatus BookStatus.wantToRead initialState = []) :=
  c5_get_by_status initialState BookStatus.wantToRead

/-- C6: after any finite sequence of add/remove/updateStatus operations on
the store, `getReadingProgress` equals the pair (number of books whose
status is have-read, total number of books). -/
theorem c6_reading_progress (ops : List StoreOp) :
    getReadingProgress (applyOps initialState ops) =
      ((applyOps initialState ops).books.countP
        (fun b => b.status = some BookStatus.haveRead),
       (applyOps initialState ops).books.length) := by
  rw [getReadingProgress, List.countP_eq_length_filter]

/-- C7: when the gateway call fails, `searchBooks` replaces the search
results with exactly one synthesized record: its title is
`"Search Result: "` followed by the query verbatim, and its identifier is
`"search-"` followed by the current time. -/
theorem c7_search_failure_fallback (query : String)
    (state : BookCollectionState) (e : Unit) (now : Nat) :
    (searchBooks query (Except.error e) now state).searchResults =
      [mockSearchResult query now] ∧
    (searchBooks query (Except.error e) now state).searchResults.length = 1 ∧
    (∃ p, (mockSearchResult query now).title = p ++ query) ∧
    (mockSearchResult query now).id = "search-" ++ toString now :=
  ⟨rfl, rfl, ⟨"Search Result: ", rfl⟩, rfl⟩

/-- C1 counterexample: the initial state has unique identifiers, yet
`addBook` of a record whose id "1" is already present yields a state with
a duplicate identifier — the claimed invariant is NOT preserved by
`addBook` on an already-present identifier. -/
theorem c1_uniqueness_counterexample :
    UniqueIds initialState ∧
    ¬ UniqueIds (addBook
      { id := "1", title := "Duplicate", authors := [], description := "",
        publishedDate := none, pageCount := none, imageLinks := none,
        status := none } initialState) := by
  decide

/-- C1 (amended): identifier uniqueness is preserved by `removeBook`,
`updateBookStatus`, `searchBooks` and `clearSearch`, and by `addBook`
when the added record's identifier is not already in the Collection;
`addBook` of an already-present identifier breaks it (the source does not
dedupe). -/
theorem c1_uniqueness_preservation (state : BookCollectionState)
    (h : UniqueIds state) (book : Book) (bookId : String)
    (status : BookStatus) (query : String)
    (gatewayResult : Except Unit (List Book)) (now : Nat)
    (hfresh : book.id ∉ state.books.map Book.id) :
    UniqueIds (removeBook bookId state) ∧
    UniqueIds (updateBookStatus bookId status state) ∧
    UniqueIds (searchBooks query gatewayResult now state) ∧
    UniqueIds (clearSearch state) ∧
    UniqueIds (addBook book state) := by
  refine ⟨?_, ?_, ?_, h, ?_⟩
  · exact List.Nodup.sublist
      (List.Sublist.map Book.id (List.filter_sublist state.books)) h
  · show ((state.books.map _).map Book.id).Nodup
    rw [List.map_map]
    have hcongr : state.books.map
        (Book.id ∘ fun book =>
          if book.id = bookId then { book with status := some status } else book) =
        state.books.map Book.id := by
      apply List.map_congr_left
      intro b _
      simp only [Function.comp]
      by_cases hb : b.id = bookId <;> simp [hb]
    rw [hcongr]
    exact h
  · cases gatewayResult <;> exact h
  · show ((state.books ++ [{ book with status := some BookStatus.wantToRead }]).map
      Book.id).Nodup
    rw [List.map_append]
    rw [List.nodup_append]
    exact ⟨h, List.nodup_singleton _, by
      intro a ha hb
      simp only [List.map_cons, List.map_nil, List.mem_singleton] at hb
      exact hfresh (hb ▸ ha)⟩

/-- Witness for C1 (amended): the initial state with a fresh record. -/
theorem c1_uniqueness_preservation_witness :
    UniqueIds (removeBook "1" initialState) ∧
    UniqueIds (updateBookStatus "1" BookStatus.haveRead initialState) ∧
    UniqueIds (searchBooks "q" (Except.error ()) 7 initialState) ∧
    UniqueIds (clearSearch initialState) ∧
    UniqueIds (addBook (mockSearchResult "q" 7) initialState) :=
  c1_uniqueness_preservation initialState (by decide) (mockSearchResult "q" 7)
    "1" BookStatus.haveRead "q" (Except.error ()) 7 (by decide)

/-- C2 counterexample: over the initial state (which already holds a book
with id "1"), `addBook` of a fresh record with id "1" does append it, but
`getBookById "1"` then returns the FIRST matching book (the sample book),
not the newly appended record — the claim fails for this record/state. -/
theorem c2_add_then_get_counterexample :
    getBookById "1" (addBook
      { id := "1", title := "Duplicate", authors := [], description := "",
        publishedDate := none, pageCount := none, imageLinks := none,
        status := none } initialState) ≠
    some { id := "1", title := "Duplicate", authors := [], description := "",
           publishedDate := none, pageCount := none, imageLinks := none,
           status := some BookStatus.wantToRead } := by
  decide

/-- C2 (amended): `addBook r` appends `r` with status forced to
want-to-read at the end of the Collection, and — provided no book with
identifier `r.id` was already present — `getBookById r.id` afterwards
returns exactly that record. -/
theorem c2_add_then_get (state : BookCollectionState) (r : Book)
    (h : ∀ b ∈ state.books, b.id ≠ r.id) :
    (addBook r state).books =
      state.books ++ [{ r with status := some BookStatus.wantToRead }] ∧
    getBookById r.id (addBook r state) =
      some { r with status := some BookStatus.wantToRead } := by
  refine ⟨rfl, ?_⟩
  simp only [getBookById, addBook, bookCollectionReducer]
  rw [List.find?_append]
  have hnone : state.books.find? (fun b => b.id = r.id) = none :=
    List.find?_eq_none.mpr (fun b hb => by simpa using h b hb)
  rw [hnone, Option.none_or]
  simp

/-- Witness for C2 (amended): adding a fresh record to the initial state. -/
theorem c2_add_then_get_witness :
    (addBook (mockSearchResult "q" 3) initialState).books =
      initialState.books ++
        [{ mockSearchResult "q" 3 with status := some BookStatus.wantToRead }] ∧
    getBookById (mockSearchResult "q" 3).id
        (addBook (mockSearchResult "q" 3) initialState) =
      some { mockSearchResult "q" 3 with status := some BookStatus.wantToRead } :=
  c2_add_then_get initialState (mockSearchResult "q" 3) (by decide)

/-- A concrete record A with identifier "1" for the §8 scenario. -/
def bookA : Book :=
  { id := "1", title := "Record A", authors := ["Author A"],
    description := "record A", publishedDate := none, pageCount := none,
    imageLinks := none, status := none }

/-- A concrete record B with identifier "2" for the §8 scenario. -/
def bookB : Book :=
  { id := "2", title := "Record B", authors := ["Author B"],
    description := "record B", publishedDate := none, pageCount := none,
    imageLinks := none, status := none }

/-- C9 counterexample: starting from the store's actual initial state
(which already holds sample books with ids "1" and "2"), the scenario
add A, add B, updateStatus("2", have-read) updates BOTH books with id "2"
and counts 4 books in total: `getReadingProgress` returns (2, 4), not
(1, 2), and `getBooksByStatus have-read` is not the one-element list
[B]. -/
theorem c9_scenario_counterexample :
    getReadingProgress (updateBookStatus "2" BookStatus.haveRead
      (addBook bookB (addBook bookA initialState))) = (2, 4) ∧
    getReadingProgress (updateBookStatus "2" BookStatus.haveRead
      (addBook bookB (addBook bookA initialState))) ≠ (1, 2) ∧
    getBooksByStatus BookStatus.haveRead (updateBookStatus "2" BookStatus.haveRead
      (addBook bookB (addBook bookA initialState))) ≠
      [{ bookB with status := some BookStatus.haveRead }] := by
  decide

/-- C9 (amended): starting from a state whose Collection is EMPTY, after
addBook of A (id "1"), addBook of B (id "2") and
updateBookStatus("2", have-read), `getReadingProgress` returns (1, 2) and
`getBooksByStatus have-read` returns exactly [B with status have-read]. -/
theorem c9_scenario (state : BookCollectionState) (hempty : state.books = [])
    (A B : Book) (hA : A.id = "1") (hB : B.id = "2") :
    getReadingProgress (updateBookStatus "2" BookStatus.haveRead
      (addBook B (addBook A state))) = (1, 2) ∧
    getBooksByStatus BookStatus.haveRead (updateBookStatus "2" BookStatus.haveRead
      (addBook B (addBook A state))) =
      [{ B with status := some BookStatus.haveRead }] := by
  simp [addBook, updateBookStatus, bookCollectionReducer, getReadingProgress,
    getBooksByStatus, hempty, hA, hB]

/-- Witness for C9 (amended): the concrete records A and B over the
initial state emptied of its sample books. -/
theorem c9_scenario_witness :
    getReadingProgress (updateBookStatus "2" BookStatus.haveRead
      (addBook bookB (addBook bookA { initialState with books := [] }))) = (1, 2) ∧
    getBooksByStatus BookStatus.haveRead (updateBookStatus "2" BookStatus.haveRead
      (addBook bookB (addBook bookA { initialState with books := [] }))) =
      [{ bookB with status := some BookStatus.haveRead }] :=
  c9_scenario { initialState with books := [] } rfl bookA bookB rfl rfl

end CodeCaddy
